import Mathlib

/-!
Verification of the session-persistence core of the repository
(`src/session_manager.py`, class `SessionManager`).

The Python module is shallowly embedded: the on-disk session directory
becomes an association list from the file stem (the session id) to the
file content, a file content is either a record that deserializes
successfully or an opaque corrupt blob, and the wall clock is passed as
an explicit integer argument.  Exceptions that the Python code raises
are modelled as `Except` errors; exceptions that the Python code
catches and converts to `None` / `False` are modelled by returning the
corresponding result directly, exactly where the `except` handler of
the source would produce it.
-/

set_option autoImplicit false
set_option maxRecDepth 100000

namespace SessionManager

/-! ### The identifier validator, `_is_valid_session_id`

The source first tries `uuid.UUID(session_id)` and accepts on success;
the CPython `uuid.UUID(hex=...)` constructor removes every occurrence of
the substrings `urn:` and `uuid:`, strips leading and trailing curly
braces, deletes every hyphen, requires exactly 32 remaining characters,
and feeds them to `int(_, 16)`, finally requiring the value to be a
128-bit non-negative number.  `int(_, 16)` itself strips surrounding
whitespace and allows an optional sign, an optional `0x`/ `0X` base
marker, and single underscores between hexadecimal digits.  The model
below reproduces that pipeline for ASCII inputs (CPython additionally
normalizes non-ASCII decimal digits and exotic Unicode spaces, which no
identifier in this development uses). -/

/-- Removes the leading occurrence of `pat` from the list if the list
starts with `pat`, returning the remainder; `none` when `pat` is not a
leading segment. -/
def dropPat : List Char → List Char → Option (List Char)
  | [], s => some s
  | _ :: _, [] => none
  | p :: ps, c :: cs => if c = p then dropPat ps cs else none

/-- Fuel-indexed worker for `removeSubstr`: scans left to right and
deletes every non-overlapping occurrence of the pattern, as CPython
`str.replace(pat, lit)` does with an empty replacement. -/
def removeSubstrAux (pat : List Char) : Nat → List Char → List Char
  | 0, s => s
  | _ + 1, [] => []
  | fuel + 1, c :: rest =>
    match dropPat pat (c :: rest) with
    | some rest2 => removeSubstrAux pat fuel rest2
    | none => c :: removeSubstrAux pat fuel rest

/-- Models CPython `s.replace(pat, lit)` with the empty replacement string. -/
def removeSubstr (pat s : List Char) : List Char :=
  removeSubstrAux pat s.length s

/-- A curly brace, written via its code point to keep the character out
of the literal text. -/
def isBrace (c : Char) : Bool :=
  c.toNat = 123 || c.toNat = 125

/-- Models CPython `s.strip(braces)`: drops leading and trailing curly
braces. -/
def stripBraces (l : List Char) : List Char :=
  ((l.dropWhile isBrace).reverse.dropWhile isBrace).reverse

/-- The numeric value of an ASCII hexadecimal digit. -/
def hexVal (c : Char) : Option Nat :=
  if '0' ≤ c ∧ c ≤ '9' then some (c.toNat - 48)
  else if 'a' ≤ c ∧ c ≤ 'f' then some (c.toNat - 87)
  else if 'A' ≤ c ∧ c ≤ 'F' then some (c.toNat - 55)
  else none

/-- The whitespace characters stripped by CPython `int(str, base)`
(the `Py_UNICODE_ISSPACE` set). -/
def pySpace (c : Char) : Bool :=
  let n := c.toNat
  decide ((9 ≤ n ∧ n ≤ 13) ∨ (28 ≤ n ∧ n ≤ 32) ∨ n = 133 ∨ n = 160 ∨
    n = 5760 ∨ (8192 ≤ n ∧ n ≤ 8202) ∨ n = 8232 ∨ n = 8233 ∨ n = 8239 ∨
    n = 8287 ∨ n = 12288)

/-- Hexadecimal digits with single underscores allowed between digits,
accumulating the value; an underscore must be followed by a digit. -/
def hexDigitsAcc : List Char → Nat → Option Nat
  | [], acc => some acc
  | ['_'], _ => none
  | '_' :: c :: rest, acc =>
    match hexVal c with
    | some v => hexDigitsAcc rest (acc * 16 + v)
    | none => none
  | c :: rest, acc =>
    match hexVal c with
    | some v => hexDigitsAcc rest (acc * 16 + v)
    | none => none

/-- A nonempty digit run: the first character must be a hexadecimal
digit (a leading underscore is rejected). -/
def pyHexDigits : List Char → Option Nat
  | [] => none
  | c :: rest =>
    match hexVal c with
    | some v => hexDigitsAcc rest v
    | none => none

/-- Models CPython `int(s, 16)` for ASCII input: surrounding
whitespace, an optional sign, an optional `0x` / `0X` marker possibly
followed by one underscore, then hexadecimal digits with underscore
separators. -/
def pyIntHex16 (l : List Char) : Option Int :=
  let l1 := l.dropWhile pySpace
  let l2 := (l1.reverse.dropWhile pySpace).reverse
  let sr : Int × List Char :=
    match l2 with
    | '+' :: r => (1, r)
    | '-' :: r => (-1, r)
    | r => (1, r)
  let l4 : List Char :=
    match sr.2 with
    | '0' :: 'x' :: r =>
      (match r with
       | '_' :: r2 => r2
       | _ => r)
    | '0' :: 'X' :: r =>
      (match r with
       | '_' :: r2 => r2
       | _ => r)
    | r => r
  match pyHexDigits l4 with
  | some v => some (sr.1 * (v : Int))
  | none => none

/-- Models success of CPython `uuid.UUID(session_id)`: remove `urn:`
and `uuid:`, strip braces, delete hyphens, require 32 characters, parse
as base-16, require a non-negative 128-bit value. -/
def pyUUIDOk (s : String) : Bool :=
  let t1 := removeSubstr ("urn:".data) s.data
  let t2 := removeSubstr ("uuid:".data) t1
  let t3 := stripBraces t2
  let t4 := t3.filter (fun c => c != '-')
  if t4.length = 32 then
    match pyIntHex16 t4 with
    | some v => decide (0 ≤ v ∧ v < 2 ^ 128)
    | none => false
  else false

/-- The literal character set of the source: letters, digits, hyphen,
underscore. -/
def allowedChars : List Char :=
  "abcdefghijklmnopqrstuvwxyzABCDEFGHIJKLMNOPQRSTUVWXYZ0123456789-_".data

/-- `SessionManager._is_valid_session_id`: empty strings are rejected,
then the UUID parse is tried, then the custom 3..64-character
alphanumeric/hyphen/underscore form. -/
def _is_valid_session_id (session_id : String) : Bool :=
  if session_id = "" then false
  else if pyUUIDOk session_id then true
  else if session_id.length < 3 ∨ 64 < session_id.length then false
  else session_id.data.all (fun c => decide (c ∈ allowedChars))

/-! ### The expiration predicate, `_is_expired`

The source reads `session.get("exp")`, returns `False` when the value
is falsy (absent, `None`, or the integer `0`), and otherwise compares
`time.time() >= int(exp) - 60`.  The field is modelled as
`Option Int` (`none` = absent) and the clock as an integer. -/

def _is_expired (now : Int) (exp : Option Int) : Bool :=
  match exp with
  | none => false
  | some e => if e = 0 then false else decide (now ≥ e - 60)

/-! ### Data model

`create_session` writes a JSON object with fixed keys; `Record` is that
object.  The `exp` field is `Option Int` because records persisted by
other writers may lack it (`session.get("exp")` then yields `None`).
`user_data` is an opaque string-keyed map, modelled as a list of
pairs. -/

structure Record where
  session_uuid : String
  session_id : String
  token : String
  api_url : String
  portal_domain : String
  user_email : String
  app_user_id : String
  company_id : String
  profile_id : String
  exp : Option Int
  created_at : Int
  last_accessed : Int
  user_data : List (String × String)
deriving DecidableEq

/-- The content of one session file: either a record that
`json.load` deserializes successfully, or an unparseable blob. -/
inductive FileData where
  | good : Record → FileData
  | corrupt : FileData
deriving DecidableEq

/-- The session directory: file stem (the id) paired with content. -/
abbrev Disk := List (String × FileData)

/-- Reading the file named by `id`, `none` when no such file exists. -/
def lookupFile : Disk → String → Option FileData
  | [], _ => none
  | (k, f) :: rest, id => if k = id then some f else lookupFile rest id

/-- `path.unlink()`: the file named by `id` disappears. -/
def removeFile : Disk → String → Disk
  | [], _ => []
  | (k, f) :: rest, id =>
    if k = id then removeFile rest id else (k, f) :: removeFile rest id

/-- `open(path, 'w')` followed by `json.dump`: the file named by `id`
now holds `f`, any previous content is overwritten. -/
def writeFile (d : Disk) (id : String) (f : FileData) : Disk :=
  (id, f) :: removeFile d id

/-- The caller-supplied business fields of `create_session`.
`user_data` is optional in the source (default `None`, replaced by the
empty dict via `user_data or ...`). -/
structure SessionFields where
  token : String
  api_url : String
  portal_domain : String
  user_email : String
  app_user_id : String
  company_id : String
  profile_id : String
  exp : Int
  user_data : Option (List (String × String))
deriving DecidableEq

/-- The `session_data` dict built by `create_session` for the resolved
id `fid` at clock `now`. -/
def sessionRecordFor (fid : String) (now : Int) (f : SessionFields) : Record :=
  { session_uuid := fid
    session_id := fid
    token := f.token
    api_url := f.api_url
    portal_domain := f.portal_domain
    user_email := f.user_email
    app_user_id := f.app_user_id
    company_id := f.company_id
    profile_id := f.profile_id
    exp := some f.exp
    created_at := now
    last_accessed := now
    user_data := f.user_data.getD [] }

/-- The `ValueError` raised by `create_session` (directly or through
`_get_session_path`) for a malformed id; it is not caught inside
`create_session` and propagates to the caller. -/
inductive CreateError where
  | invalidSessionId : CreateError
deriving DecidableEq

/-- The result of `load_session`: `absent` is Python `None` (returned
for a missing record, an expired record, and every swallowed
exception), `found` carries the deserialized record. -/
inductive LoadResult where
  | absent : LoadResult
  | found : Record → LoadResult
deriving DecidableEq

/-! ### Store operations -/

/-- The tail of `create_session` after the id is resolved: the
`_get_session_path` validation of the resolved id (line 124 of the
source, raising on failure) followed by the locked serialization of the
record. -/
def finishCreate (d : Disk) (now : Int) (f : SessionFields) (fid : String) :
    Except CreateError (String × Disk) :=
  if _is_valid_session_id fid then
    Except.ok (fid, writeFile d fid (FileData.good (sessionRecordFor fid now f)))
  else Except.error CreateError.invalidSessionId

/-- `SessionManager.create_session`.  A falsy (`None` or empty)
`session_id` argument selects the generated-UUID branch, modelled by
the explicit `genId` parameter (the source calls `str(uuid.uuid4())`
there).  A supplied non-empty id is validated, and the resolved id is
validated again inside `_get_session_path`; both failures raise.  On
success the record is serialized to the file named by the id. -/
def create_session (d : Disk) (now : Int) (f : SessionFields)
    (session_id : Option String) (genId : String) :
    Except CreateError (String × Disk) :=
  match session_id with
  | some sid =>
    if sid ≠ "" then
      if _is_valid_session_id sid then finishCreate d now f sid
      else Except.error CreateError.invalidSessionId
    else finishCreate d now f genId
  | none => finishCreate d now f genId

/-- `SessionManager.delete_session`: falsy id returns `False`; the
`ValueError` of `_get_session_path` is caught by the blanket `except`
and becomes `False`; otherwise the file is unlinked when present. -/
def delete_session (d : Disk) (id : String) : Bool × Disk :=
  if id = "" then (false, d)
  else if _is_valid_session_id id = false then (false, d)
  else
    match lookupFile d id with
    | some _ => (true, removeFile d id)
    | none => (false, d)

/-- `SessionManager._update_access_time`: re-reads the record, sets
`last_accessed := now` and rewrites the file.  Every exception is
swallowed (`except: pass`): a malformed id, a missing file, a record
that fails to parse, or any I/O fault (modelled by `ioOk = false`)
leaves the disk as it was. -/
def _update_access_time (d : Disk) (now : Int) (id : String) (ioOk : Bool) : Disk :=
  if ioOk = false then d
  else if _is_valid_session_id id = false then d
  else
    match lookupFile d id with
    | some (FileData.good r) => writeFile d id (FileData.good { r with last_accessed := now })
    | _ => d

/-- `SessionManager.load_session`: falsy id returns `None`; the
`ValueError` of `_get_session_path` and a `json.load` failure are both
caught by the blanket `except` and become `None`; an expired record is
deleted through `delete_session` and reported `None`; otherwise the
record read under the lock is returned after a best-effort
`_update_access_time` bump (whose own failure, `ioOk = false`, is
swallowed). -/
def load_session (d : Disk) (now : Int) (id : String) (ioOk : Bool) :
    LoadResult × Disk :=
  if id = "" then (LoadResult.absent, d)
  else if _is_valid_session_id id = false then (LoadResult.absent, d)
  else
    match lookupFile d id with
    | none => (LoadResult.absent, d)
    | some FileData.corrupt => (LoadResult.absent, d)
    | some (FileData.good r) =>
      if _is_expired now r.exp then (LoadResult.absent, (delete_session d id).2)
      else (LoadResult.found r, _update_access_time d now id ioOk)

/-- Worker for `cleanup_expired_sessions`: iterates over the directory
listing taken at entry (`glob`), re-reads each file, skips files that
fail to parse (`except: pass`), and deletes, counting unconditionally,
every record whose `_is_expired` holds. -/
def cleanupFiles (now : Int) : List (String × FileData) → Disk → Nat × Disk
  | [], d => (0, d)
  | (id, fd) :: rest, d =>
    match fd with
    | FileData.corrupt => cleanupFiles now rest d
    | FileData.good r =>
      if _is_expired now r.exp then
        let res := cleanupFiles now rest (delete_session d id).2
        (res.1 + 1, res.2)
      else cleanupFiles now rest d

/-- `SessionManager.cleanup_expired_sessions`. -/
def cleanup_expired_sessions (d : Disk) (now : Int) : Nat × Disk :=
  cleanupFiles now d d

/-! ### Spec-side definitions for the identifier grammar

These follow the words of the specification (section 4.2), not the
source, and exist to be compared with `_is_valid_session_id`. -/

/-- ASCII letters, digits, hyphen and underscore, written from the
words of the specification (digits first, then upper case, then lower
case, unlike the literal in the source). -/
def specIdChars : List Char :=
  "0123456789ABCDEFGHIJKLMNOPQRSTUVWXYZabcdefghijklmnopqrstuvwxyz-_".data

/-- The canonical textual representation of a UUID: 36 characters,
hyphens exactly at positions 8, 13, 18 and 23, hexadecimal digits
everywhere else. -/
def isCanonicalUUID (s : String) : Bool :=
  decide (s.length = 36) &&
    s.data.enum.all (fun p =>
      if p.1 = 8 ∨ p.1 = 13 ∨ p.1 = 18 ∨ p.1 = 23 then p.2 = '-'
      else (hexVal p.2).isSome)

/-- Clause (b) of the specification grammar: length 3 to 64, drawn
from `specIdChars`. -/
def specCustomOk (s : String) : Bool :=
  decide (3 ≤ s.length) && decide (s.length ≤ 64) &&
    s.data.all (fun c => decide (c ∈ specIdChars))

/-- The acceptance condition of the specification, section 4.2, as
frozen in the claim: canonical UUID or custom form. -/
def specClaimedValid (s : String) : Bool :=
  isCanonicalUUID s || specCustomOk s

/-! ### Concrete data for the witness theorems -/

def sampleFields : SessionFields :=
  { token := "tok-123"
    api_url := "https://api.example.com"
    portal_domain := "portal.example.com"
    user_email := "user@example.com"
    app_user_id := "u1"
    company_id := "c1"
    profile_id := "p1"
    exp := 5000
    user_data := some [("k", "v")] }

def sampleRec : Record := sessionRecordFor "sess-1" 100 sampleFields

def sampleRecNoExp : Record := { sampleRec with exp := none }

def sampleRecZeroExp : Record := { sampleRec with exp := some 0 }

/-- An id that violates the grammar of section 4.2 — it starts with a
tab, a control character — yet is accepted by the code, because the
whitespace tolerance of `int(_, 16)` makes the lenient UUID parse
succeed on a tab followed by 31 hexadecimal digits. -/
def ctrlCharId : String := "\t2345678123456781234567812345678"

/-! ### Basic facts about the disk model -/

theorem lookupFile_removeFile_self (d : Disk) (id : String) :
    lookupFile (removeFile d id) id = none := by
  induction d with
  | nil => rfl
  | cons p rest ih =>
    obtain ⟨k, f⟩ := p
    by_cases h : k = id
    · simpa [removeFile, h] using ih
    · simpa [removeFile, lookupFile, h] using ih

theorem lookupFile_removeFile_ne (d : Disk) (id id2 : String) (h : id2 ≠ id) :
    lookupFile (removeFile d id) id2 = lookupFile d id2 := by
  induction d with
  | nil => rfl
  | cons p rest ih =>
    obtain ⟨k, f⟩ := p
    by_cases hk : k = id
    · subst hk
      simp only [removeFile, if_pos rfl, lookupFile, if_neg (Ne.symm h)]
      exact ih
    · by_cases hk2 : k = id2
      · simp [removeFile, lookupFile, hk, hk2, h]
      · simpa [removeFile, lookupFile, hk, hk2] using ih

theorem lookupFile_writeFile_self (d : Disk) (id : String) (f : FileData) :
    lookupFile (writeFile d id f) id = some f := by
  simp [writeFile, lookupFile]

theorem lookupFile_writeFile_ne (d : Disk) (id id2 : String) (f : FileData)
    (h : id2 ≠ id) :
    lookupFile (writeFile d id f) id2 = lookupFile d id2 := by
  simp only [writeFile, lookupFile, if_neg (Ne.symm h)]
  exact lookupFile_removeFile_ne d id id2 h

theorem valid_ne_empty (s : String) (h : _is_valid_session_id s = true) :
    s ≠ "" := by
  intro he
  subst he
  exact absurd h (by decide)

/-- With no duplicate file names (always true of a real directory), a
directory entry is exactly what `lookupFile` returns for its name. -/
theorem lookupFile_of_mem_nodup (d : Disk) (id : String) (fd : FileData)
    (hnd : (d.map Prod.fst).Nodup) (hmem : (id, fd) ∈ d) :
    lookupFile d id = some fd := by
  induction d with
  | nil => cases hmem
  | cons p rest ih =>
    obtain ⟨k, f⟩ := p
    simp only [List.map_cons, List.nodup_cons] at hnd
    rcases List.mem_cons.mp hmem with heq | hrest
    · cases heq
      simp [lookupFile]
    · have hk : k ≠ id := by
        intro hk
        subst hk
        exact hnd.1 (List.mem_map_of_mem Prod.fst hrest)
      simp only [lookupFile, if_neg hk]
      exact ih hnd.2 hrest

/-- `delete_session` never touches files other than its argument. -/
theorem lookupFile_delete_ne (d : Disk) (id id2 : String) (h : id2 ≠ id) :
    lookupFile (delete_session d id).2 id2 = lookupFile d id2 := by
  unfold delete_session
  split
  · rfl
  · split
    · rfl
    · split
      · exact lookupFile_removeFile_ne d id id2 h
      · rfl

/-- The sweep preserves every file whose name is not that of an
expired, well-formed entry of the listing it walks. -/
theorem cleanupFiles_preserve (now : Int) (entries : List (String × FileData)) :
    ∀ (d : Disk) (id : String) (fd : FileData),
      (∀ (id2 : String) (r : Record),
        (id2, FileData.good r) ∈ entries → _is_expired now r.exp = true → id2 ≠ id) →
      lookupFile d id = some fd →
      lookupFile (cleanupFiles now entries d).2 id = some fd := by
  induction entries with
  | nil => intro d id fd _ hl; exact hl
  | cons p rest ih =>
    intro d id fd hprem hl
    obtain ⟨eid, ef⟩ := p
    match ef with
    | FileData.corrupt =>
      exact ih d id fd (fun id2 r hm he => hprem id2 r (List.mem_cons_of_mem _ hm) he) hl
    | FileData.good r =>
      by_cases hexp : _is_expired now r.exp = true
      · have hne : eid ≠ id := hprem eid r (List.mem_cons_self _ _) hexp
        have hl2 : lookupFile (delete_session d eid).2 id = some fd := by
          rw [lookupFile_delete_ne d eid id (Ne.symm hne)]
          exact hl
        have := ih (delete_session d eid).2 id fd
          (fun id2 r2 hm he => hprem id2 r2 (List.mem_cons_of_mem _ hm) he) hl2
        simpa [cleanupFiles, hexp] using this
      · have hexp2 : _is_expired now r.exp = false := by
          cases hb : _is_expired now r.exp
          · rfl
          · exact absurd hb hexp
        have := ih d id fd
          (fun id2 r2 hm he => hprem id2 r2 (List.mem_cons_of_mem _ hm) he) hl
        simpa [cleanupFiles, hexp2] using this

theorem mem_specIdChars_of_allowed (c : Char) (h : c ∈ allowedChars) :
    c ∈ specIdChars := by
  rw [show allowedChars =
    ['a', 'b', 'c', 'd', 'e', 'f', 'g', 'h', 'i', 'j', 'k', 'l', 'm', 'n',
     'o', 'p', 'q', 'r', 's', 't', 'u', 'v', 'w', 'x', 'y', 'z',
     'A', 'B', 'C', 'D', 'E', 'F', 'G', 'H', 'I', 'J', 'K', 'L', 'M', 'N',
     'O', 'P', 'Q', 'R', 'S', 'T', 'U', 'V', 'W', 'X', 'Y', 'Z',
     '0', '1', '2', '3', '4', '5', '6', '7', '8', '9', '-', '_'] from rfl] at h
  fin_cases h <;> decide

theorem mem_allowed_of_specIdChars (c : Char) (h : c ∈ specIdChars) :
    c ∈ allowedChars := by
  rw [show specIdChars =
    ['0', '1', '2', '3', '4', '5', '6', '7', '8', '9',
     'A', 'B', 'C', 'D', 'E', 'F', 'G', 'H', 'I', 'J', 'K', 'L', 'M', 'N',
     'O', 'P', 'Q', 'R', 'S', 'T', 'U', 'V', 'W', 'X', 'Y', 'Z',
     'a', 'b', 'c', 'd', 'e', 'f', 'g', 'h', 'i', 'j', 'k', 'l', 'm', 'n',
     'o', 'p', 'q', 'r', 's', 't', 'u', 'v', 'w', 'x', 'y', 'z', '-', '_'] from rfl] at h
  fin_cases h <;> decide

/-! ### Behaviour of the operations on the main paths -/

/-- A valid id that resolves to a well-formed, unexpired record makes
`load_session` return that record and hand the disk to the access-time
bump. -/
theorem load_unexpired_eq (d : Disk) (now : Int) (id : String) (r : Record)
    (ioOk : Bool)
    (hv : _is_valid_session_id id = true)
    (hl : lookupFile d id = some (FileData.good r))
    (hne : _is_expired now r.exp = false) :
    load_session d now id ioOk = (LoadResult.found r, _update_access_time d now id ioOk) := by
  unfold load_session
  rw [if_neg (valid_ne_empty id hv), hv]
  rw [if_neg (by simp)]
  rw [hl]
  simp [hne]

/-- What the access-time bump leaves at the id: the bumped record on
success, the old record when the bump fails and is swallowed. -/
theorem bump_lookup (d : Disk) (now : Int) (id : String) (r : Record) (ioOk : Bool)
    (hv : _is_valid_session_id id = true)
    (hl : lookupFile d id = some (FileData.good r)) :
    lookupFile (_update_access_time d now id ioOk) id
      = some (FileData.good (if ioOk = true then { r with last_accessed := now } else r)) := by
  unfold _update_access_time
  cases ioOk with
  | false => simpa using hl
  | true =>
    rw [if_neg (by simp), hv]
    rw [if_neg (by simp), hl]
    simp [lookupFile_writeFile_self]

/-- The sweep keeps any file whose own content does not satisfy the
expiration predicate, provided the directory has no duplicate names. -/
theorem cleanup_keeps (d : Disk) (now : Int) (id : String) (fd : FileData)
    (hnd : (d.map Prod.fst).Nodup)
    (hl : lookupFile d id = some fd)
    (hne : ∀ r2 : Record, fd = FileData.good r2 → _is_expired now r2.exp = false) :
    lookupFile (cleanup_expired_sessions d now).2 id = some fd := by
  unfold cleanup_expired_sessions
  refine cleanupFiles_preserve now d d id fd ?_ hl
  intro id2 r2 hmem hexp heq
  subst heq
  have hlk := lookupFile_of_mem_nodup d id2 (FileData.good r2) hnd hmem
  rw [hl] at hlk
  have hfd : fd = FileData.good r2 := Option.some.inj hlk
  rw [hne r2 hfd] at hexp
  cases hexp

/-- Inversion of a successful `finishCreate`. -/
theorem finishCreate_ok_inv (d : Disk) (now : Int) (f : SessionFields)
    (fid rid : String) (d2 : Disk)
    (hc : finishCreate d now f fid = Except.ok (rid, d2)) :
    rid = fid ∧ _is_valid_session_id fid = true ∧
    d2 = writeFile d fid (FileData.good (sessionRecordFor fid now f)) := by
  unfold finishCreate at hc
  by_cases hv : _is_valid_session_id fid = true
  · rw [if_pos hv] at hc
    injection hc with h
    injection h with h1 h2
    exact ⟨h1.symm, hv, h2.symm⟩
  · rw [if_neg hv] at hc
    cases hc

/-- Inversion of a successful `create_session`: whichever branch
resolved the id, the resolved id is valid and the disk now holds
exactly the record built from the inputs. -/
theorem create_session_ok_inv (d : Disk) (now : Int) (f : SessionFields)
    (sid? : Option String) (genId rid : String) (d2 : Disk)
    (hc : create_session d now f sid? genId = Except.ok (rid, d2)) :
    _is_valid_session_id rid = true ∧
    d2 = writeFile d rid (FileData.good (sessionRecordFor rid now f)) := by
  cases sid? with
  | none =>
    simp only [create_session] at hc
    obtain ⟨h1, h2, h3⟩ := finishCreate_ok_inv d now f genId rid d2 hc
    subst h1
    exact ⟨h2, h3⟩
  | some sid =>
    simp only [create_session] at hc
    by_cases hs : sid ≠ ""
    · rw [if_pos hs] at hc
      by_cases hv : _is_valid_session_id sid = true
      · rw [if_pos hv] at hc
        obtain ⟨h1, h2, h3⟩ := finishCreate_ok_inv d now f sid rid d2 hc
        subst h1
        exact ⟨h2, h3⟩
      · rw [if_neg hv] at hc
        cases hc
    · rw [if_neg hs] at hc
      obtain ⟨h1, h2, h3⟩ := finishCreate_ok_inv d now f genId rid d2 hc
      subst h1
      exact ⟨h2, h3⟩

/-! ### The claims -/

/-- C1, counterexample.  The claim says every id violating the
grammar of section 4.2 makes every operation fail with a distinct
InvalidIdentifier result before any filesystem access, never silently
mapped onto Absent.  It fails in two ways.  First, for the
grammar-violating id `a/b` (contains a slash) the failure is mapped
onto the Absent results: `load_session` returns `None` and
`delete_session` returns `False`, byte-for-byte the results a merely
missing id produces.  Second, not every grammar-violating id is even
rejected: `ctrlCharId` contains a control character — one of the
violations the claim itself enumerates — yet the code accepts it, and
for it the store really is accessed: `create_session` happily writes a
record under that name, `load_session` returns the persisted record,
and `delete_session` unlinks its file. -/
theorem invalid_id_swallowed_cex :
    _is_valid_session_id "a/b" = false ∧
    load_session [] 0 "a/b" true = (LoadResult.absent, ([] : Disk)) ∧
    delete_session [] "a/b" = (false, ([] : Disk)) ∧
    load_session [] 0 "missing-id" true = (LoadResult.absent, ([] : Disk)) ∧
    delete_session [] "missing-id" = (false, ([] : Disk)) ∧
    specClaimedValid ctrlCharId = false ∧
    _is_valid_session_id ctrlCharId = true ∧
    create_session [] 100 sampleFields (some ctrlCharId) "g0g0"
      = Except.ok (ctrlCharId,
          [(ctrlCharId, FileData.good (sessionRecordFor ctrlCharId 100 sampleFields))]) ∧
    (load_session [(ctrlCharId, FileData.good sampleRec)] 100 ctrlCharId true).1
      = LoadResult.found sampleRec ∧
    delete_session [(ctrlCharId, FileData.good sampleRec)] ctrlCharId
      = (true, ([] : Disk)) :=
  ⟨by decide, by decide, by decide, by decide, by decide, by decide, by decide,
    rfl, by decide, by decide⟩

/-- C1, amended.  The rejection set of the store is the one decided by
`_is_valid_session_id`, a strict subset of the section 4.2 grammar
violators (the counterexample exhibits a grammar-violating id the code
accepts and operates on).  For every id that validator does reject —
every non-empty string failing both the lenient UUID parse and the
3..64 letters/digits/hyphen/underscore form — all three operations
detect it before any filesystem access, the disk coming back
untouched, but only `create_session` surfaces the distinct failure
(an uncaught ValueError); `load_session` and `delete_session` catch it
and return the Absent-shaped results `None` and `False`. -/
theorem invalid_id_rejected_before_storage
    (d : Disk) (now now2 : Int) (f : SessionFields) (genId id : String) (ioOk : Bool)
    (hinv : _is_valid_session_id id = false) (hne : id ≠ "") :
    create_session d now f (some id) genId = Except.error CreateError.invalidSessionId ∧
    load_session d now2 id ioOk = (LoadResult.absent, d) ∧
    delete_session d id = (false, d) := by
  refine ⟨?_, ?_, ?_⟩
  · simp only [create_session]
    rw [if_pos hne]
    rw [if_neg (by simp [hinv])]
  · unfold load_session
    rw [if_neg hne, if_pos hinv]
  · unfold delete_session
    rw [if_neg hne, if_pos hinv]

/-- C1, witness for the amended theorem at the concrete id `a/b`. -/
theorem invalid_id_rejected_before_storage_witness :
    _is_valid_session_id "a/b" = false ∧ "a/b" ≠ "" ∧
    (create_session [] 100 sampleFields (some "a/b") "g0g0"
        = Except.error CreateError.invalidSessionId ∧
      load_session [] 100 "a/b" true = (LoadResult.absent, ([] : Disk)) ∧
      delete_session [] "a/b" = (false, ([] : Disk))) :=
  ⟨by decide, by decide,
    invalid_id_rejected_before_storage [] 100 100 sampleFields "g0g0" "a/b" true
      (by decide) (by decide)⟩

/-- C2, counterexample.  The claim says a record that exists but fails
to deserialize is reported as a distinct IOFailure, not Absent.  The
code catches the parse failure and returns `None`: the result is
identical to loading an id that has no record at all. -/
theorem corrupt_record_absent_cex :
    load_session [("abcde", FileData.corrupt)] 0 "abcde" true
      = (LoadResult.absent, [("abcde", FileData.corrupt)]) ∧
    (load_session [("abcde", FileData.corrupt)] 0 "abcde" true).1
      = (load_session [] 0 "abcde" true).1 :=
  ⟨by decide, by decide⟩

/-- C2, amended.  A record that exists but fails to deserialize is
never deleted — the disk comes back unchanged — but `load_session`
reports it as the Absent result `None`, not as a distinct IOFailure. -/
theorem corrupt_record_not_deleted
    (d : Disk) (now : Int) (id : String) (ioOk : Bool)
    (hv : _is_valid_session_id id = true)
    (hc : lookupFile d id = some FileData.corrupt) :
    load_session d now id ioOk = (LoadResult.absent, d) := by
  unfold load_session
  rw [if_neg (valid_ne_empty id hv), hv]
  rw [if_neg (by simp)]
  rw [hc]

/-- C2, witness for the amended theorem. -/
theorem corrupt_record_not_deleted_witness :
    _is_valid_session_id "abcde" = true ∧
    lookupFile [("abcde", FileData.corrupt)] "abcde" = some FileData.corrupt ∧
    load_session [("abcde", FileData.corrupt)] 7 "abcde" false
      = (LoadResult.absent, [("abcde", FileData.corrupt)]) :=
  ⟨by decide, by decide,
    corrupt_record_not_deleted [("abcde", FileData.corrupt)] 7 "abcde" false
      (by decide) (by decide)⟩

/-- C3, counterexample.  The claim says the validator accepts exactly
canonical UUIDs and 3..64-character alphanumeric/hyphen/underscore
strings.  A brace-wrapped UUID is neither, yet CPython
`uuid.UUID(...)` parses it, so the validator accepts it. -/
theorem validator_beyond_spec_cex :
    _is_valid_session_id "\x7b12345678-1234-5678-1234-567812345678\x7d" = true ∧
    specClaimedValid "\x7b12345678-1234-5678-1234-567812345678\x7d" = false :=
  ⟨by decide, by decide⟩

/-- C3, amended.  The validator accepts a string if and only if
CPython `uuid.UUID` parses it (which also admits `urn:`/`uuid:`
markers, surrounding braces, rearranged hyphens, a sign, a base
marker, underscores and surrounding whitespace around the 32 hex
digits) or the string has length 3 to 64 and is drawn from ASCII
letters, digits, hyphen and underscore. -/
theorem validator_accepts_iff (s : String) :
    _is_valid_session_id s = true ↔
      (pyUUIDOk s = true ∨
        (3 ≤ s.length ∧ s.length ≤ 64 ∧ ∀ c ∈ s.data, c ∈ specIdChars)) := by
  unfold _is_valid_session_id
  by_cases he : s = ""
  · subst he
    constructor
    · intro h
      simp at h
    · rintro (h | ⟨h3, _, _⟩)
      · exact absurd h (by decide)
      · simp at h3
  · rw [if_neg he]
    by_cases hu : pyUUIDOk s = true
    · simp [hu]
    · have hu2 : pyUUIDOk s = false := by
        cases h : pyUUIDOk s
        · rfl
        · exact absurd h hu
      rw [hu2]
      simp only [Bool.false_eq_true, if_false]
      constructor
      · intro h
        by_cases hlen : s.length < 3 ∨ 64 < s.length
        · rw [if_pos hlen] at h
          cases h
        · rw [if_neg hlen] at h
          push_neg at hlen
          refine Or.inr ⟨by omega, by omega, ?_⟩
          intro c hc
          have hmem := List.all_eq_true.mp h c hc
          exact mem_specIdChars_of_allowed c (by simpa using hmem)
      · rintro (hfalse | ⟨h3, h64, hall⟩)
        · exact hfalse.elim
        · have hlen : ¬(s.length < 3 ∨ 64 < s.length) := by omega
          rw [if_neg hlen]
          refine List.all_eq_true.mpr ?_
          intro c hc
          simpa using mem_allowed_of_specIdChars c (hall c hc)

/-- C4, counterexample.  The claim says the expiration predicate holds
exactly when `now >= expiresAt - 60`.  A record whose `exp` is present
but equal to `0` falsifies this: `now >= 0 - 60` holds at `now = 100`,
yet the predicate is false, because the source tests the falsiness of
`exp` rather than its absence. -/
theorem expiry_zero_exp_cex :
    _is_expired 100 (some 0) = false ∧ ((100 : Int) ≥ 0 - 60) :=
  ⟨by decide, by decide⟩

/-- C4, amended.  For sessions whose `exp` is present and nonzero, the
predicate holds exactly when `now >= exp - 60`, and for a positive
clock the boundary behaves as claimed: `exp = now + 59` is expired,
`exp = now + 61` is not, and `exp = now + 60` (exactly skew seconds
ahead) is expired.  A zero `exp` is instead treated as no expiry. -/
theorem expiry_boundary (now e : Int) (hnow : 0 < now) (he : e ≠ 0) :
    (_is_expired now (some e) = true ↔ now ≥ e - 60) ∧
    _is_expired now (some (now + 59)) = true ∧
    _is_expired now (some (now + 61)) = false ∧
    _is_expired now (some (now + 60)) = true := by
  simp only [_is_expired]
  refine ⟨?_, ?_, ?_, ?_⟩
  · rw [if_neg he]
    simp only [decide_eq_true_eq]
  · rw [if_neg (by omega : ¬ now + 59 = 0)]
    simp only [decide_eq_true_eq]
    omega
  · rw [if_neg (by omega : ¬ now + 61 = 0)]
    simp only [decide_eq_false_iff_not]
    omega
  · rw [if_neg (by omega : ¬ now + 60 = 0)]
    simp only [decide_eq_true_eq]
    omega

/-- C4, witness for the amended theorem at `now = 1000`, `e = 940`. -/
theorem expiry_boundary_witness :
    ((0 : Int) < 1000) ∧ ((940 : Int) ≠ 0) ∧
    ((_is_expired 1000 (some 940) = true ↔ (1000 : Int) ≥ 940 - 60) ∧
      _is_expired 1000 (some (1000 + 59)) = true ∧
      _is_expired 1000 (some (1000 + 61)) = false ∧
      _is_expired 1000 (some (1000 + 60)) = true) :=
  ⟨by decide, by decide, expiry_boundary 1000 940 (by decide) (by decide)⟩

/-- C5.  A successful `create_session`, at whatever id it resolved,
followed immediately by `load_session` of that id at any instant where
the stored expiry is not yet reached, returns a record whose business
fields are verbatim the creation inputs. -/
theorem create_load_roundtrip
    (d : Disk) (now now2 : Int) (f : SessionFields) (sid? : Option String)
    (genId rid : String) (d2 : Disk) (ioOk : Bool)
    (hc : create_session d now f sid? genId = Except.ok (rid, d2))
    (hne : _is_expired now2 (some f.exp) = false) :
    (load_session d2 now2 rid ioOk).1 = LoadResult.found
      { session_uuid := rid, session_id := rid, token := f.token,
        api_url := f.api_url, portal_domain := f.portal_domain,
        user_email := f.user_email, app_user_id := f.app_user_id,
        company_id := f.company_id, profile_id := f.profile_id,
        exp := some f.exp, created_at := now, last_accessed := now,
        user_data := f.user_data.getD [] } := by
  obtain ⟨hv, hd⟩ := create_session_ok_inv d now f sid? genId rid d2 hc
  subst hd
  have hlk := lookupFile_writeFile_self d rid (FileData.good (sessionRecordFor rid now f))
  have hexp : _is_expired now2 (sessionRecordFor rid now f).exp = false := hne
  rw [load_unexpired_eq (writeFile d rid (FileData.good (sessionRecordFor rid now f)))
    now2 rid (sessionRecordFor rid now f) ioOk hv hlk hexp]
  rfl

/-- C5, witness: concrete creation at id `sess-1`, loaded at the same
instant. -/
theorem create_load_roundtrip_witness :
    create_session [] 100 sampleFields (some "sess-1") "b0b0"
      = Except.ok ("sess-1", [("sess-1", FileData.good sampleRec)]) ∧
    _is_expired 100 (some sampleFields.exp) = false ∧
    (load_session [("sess-1", FileData.good sampleRec)] 100 "sess-1" true).1
      = LoadResult.found
        { session_uuid := "sess-1", session_id := "sess-1", token := "tok-123",
          api_url := "https://api.example.com", portal_domain := "portal.example.com",
          user_email := "user@example.com", app_user_id := "u1",
          company_id := "c1", profile_id := "p1",
          exp := some 5000, created_at := 100, last_accessed := 100,
          user_data := [("k", "v")] } :=
  ⟨rfl, by decide,
    create_load_roundtrip [] 100 100 sampleFields (some "sess-1") "b0b0" "sess-1"
      [("sess-1", FileData.good sampleRec)] true rfl (by decide)⟩

/-- C6.  Loading a persisted record whose expiration predicate holds
deletes the record and returns Absent; afterwards no file with that id
exists. -/
theorem expired_load_deletes
    (d : Disk) (now : Int) (id : String) (r : Record) (ioOk : Bool)
    (hv : _is_valid_session_id id = true)
    (hl : lookupFile d id = some (FileData.good r))
    (he : _is_expired now r.exp = true) :
    load_session d now id ioOk = (LoadResult.absent, removeFile d id) ∧
    lookupFile (load_session d now id ioOk).2 id = none := by
  have h1 : load_session d now id ioOk = (LoadResult.absent, removeFile d id) := by
    unfold load_session
    rw [if_neg (valid_ne_empty id hv), hv]
    rw [if_neg (by simp)]
    rw [hl]
    simp only [he, if_true]
    unfold delete_session
    rw [if_neg (valid_ne_empty id hv), hv]
    rw [if_neg (by simp)]
    rw [hl]
  refine ⟨h1, ?_⟩
  rw [h1]
  exact lookupFile_removeFile_self d id

/-- C6, witness: a record expired 1000 seconds before the clock. -/
theorem expired_load_deletes_witness :
    _is_valid_session_id "sess-1" = true ∧
    lookupFile [("sess-1", FileData.good sampleRec)] "sess-1"
      = some (FileData.good sampleRec) ∧
    _is_expired 6000 sampleRec.exp = true ∧
    (load_session [("sess-1", FileData.good sampleRec)] 6000 "sess-1" true
        = (LoadResult.absent, ([] : Disk)) ∧
      lookupFile (load_session [("sess-1", FileData.good sampleRec)] 6000 "sess-1" true).2
        "sess-1" = none) :=
  ⟨by decide, by decide, by decide,
    expired_load_deletes [("sess-1", FileData.good sampleRec)] 6000 "sess-1"
      sampleRec true (by decide) (by decide) (by decide)⟩

/-- C7.  A record with no `exp` value is never removed: `load_session`
keeps it (bumping only its access time when the bump succeeds), the
sweep keeps it at every clock value, and only an explicit
`delete_session` removes it. -/
theorem no_expiry_never_removed
    (d : Disk) (now now2 : Int) (id : String) (r : Record) (ioOk : Bool)
    (hnd : (d.map Prod.fst).Nodup)
    (hv : _is_valid_session_id id = true)
    (hl : lookupFile d id = some (FileData.good r))
    (hexp : r.exp = none) :
    lookupFile (load_session d now id ioOk).2 id
      = some (FileData.good (if ioOk = true then { r with last_accessed := now } else r)) ∧
    lookupFile (cleanup_expired_sessions d now2).2 id = some (FileData.good r) ∧
    lookupFile (delete_session d id).2 id = none := by
  have hne : _is_expired now r.exp = false := by rw [hexp]; rfl
  refine ⟨?_, ?_, ?_⟩
  · rw [load_unexpired_eq d now id r ioOk hv hl hne]
    exact bump_lookup d now id r ioOk hv hl
  · refine cleanup_keeps d now2 id (FileData.good r) hnd hl ?_
    intro r2 h2
    have hr : r2 = r := (FileData.good.inj h2).symm
    rw [hr, hexp]
    rfl
  · unfold delete_session
    rw [if_neg (valid_ne_empty id hv), hv]
    rw [if_neg (by simp)]
    rw [hl]
    exact lookupFile_removeFile_self d id

/-- C7, witness: a record whose `exp` is absent, with a failing bump
(`ioOk = false`), the sweep run at a huge clock value. -/
theorem no_expiry_never_removed_witness :
    (([("sess-1", FileData.good sampleRecNoExp)].map Prod.fst).Nodup) ∧
    _is_valid_session_id "sess-1" = true ∧
    lookupFile [("sess-1", FileData.good sampleRecNoExp)] "sess-1"
      = some (FileData.good sampleRecNoExp) ∧
    sampleRecNoExp.exp = none ∧
    (lookupFile
        (load_session [("sess-1", FileData.good sampleRecNoExp)] 999999 "sess-1" false).2
        "sess-1" = some (FileData.good (if false = true
          then { sampleRecNoExp with last_accessed := 999999 } else sampleRecNoExp)) ∧
      lookupFile
        (cleanup_expired_sessions [("sess-1", FileData.good sampleRecNoExp)] 999999).2
        "sess-1" = some (FileData.good sampleRecNoExp) ∧
      lookupFile (delete_session [("sess-1", FileData.good sampleRecNoExp)] "sess-1").2
        "sess-1" = none) :=
  ⟨by decide, by decide, by decide, by decide,
    no_expiry_never_removed [("sess-1", FileData.good sampleRecNoExp)] 999999 999999
      "sess-1" sampleRecNoExp false (by decide) (by decide) (by decide) (by decide)⟩

/-- C8.  For a valid id resolving to a well-formed, unexpired record,
`load_session` returns the record whatever happens to the best-effort
access-time bump: `ioOk` is arbitrary, and `ioOk = false` (the bump
raises and the exception is swallowed) changes nothing about the
returned value. -/
theorem access_bump_failure_swallowed
    (d : Disk) (now : Int) (id : String) (r : Record) (ioOk : Bool)
    (hv : _is_valid_session_id id = true)
    (hl : lookupFile d id = some (FileData.good r))
    (hne : _is_expired now r.exp = false) :
    (load_session d now id ioOk).1 = LoadResult.found r := by
  rw [load_unexpired_eq d now id r ioOk hv hl hne]

/-- C8, witness: the bump fails (`ioOk = false`), the record is still
returned. -/
theorem access_bump_failure_swallowed_witness :
    _is_valid_session_id "sess-1" = true ∧
    lookupFile [("sess-1", FileData.good sampleRec)] "sess-1"
      = some (FileData.good sampleRec) ∧
    _is_expired 100 sampleRec.exp = false ∧
    (load_session [("sess-1", FileData.good sampleRec)] 100 "sess-1" false).1
      = LoadResult.found sampleRec :=
  ⟨by decide, by decide, by decide,
    access_bump_failure_swallowed [("sess-1", FileData.good sampleRec)] 100 "sess-1"
      sampleRec false (by decide) (by decide) (by decide)⟩

/-- C9.  A successful access-time bump rewrites the record changing
only `last_accessed`: the stored file now holds the record with
`last_accessed = now`, every other field — `created_at` and all the
business fields — syntactically unchanged, and with a non-decreasing
clock the new `last_accessed` is not below the old one. -/
theorem access_bump_frame
    (d : Disk) (now : Int) (id : String) (r : Record)
    (hv : _is_valid_session_id id = true)
    (hl : lookupFile d id = some (FileData.good r))
    (hmono : r.last_accessed ≤ now) :
    lookupFile (_update_access_time d now id true) id
      = some (FileData.good { r with last_accessed := now }) ∧
    ({ r with last_accessed := now } : Record).created_at = r.created_at ∧
    ({ r with last_accessed := now } : Record).token = r.token ∧
    ({ r with last_accessed := now } : Record).api_url = r.api_url ∧
    ({ r with last_accessed := now } : Record).portal_domain = r.portal_domain ∧
    ({ r with last_accessed := now } : Record).user_email = r.user_email ∧
    ({ r with last_accessed := now } : Record).app_user_id = r.app_user_id ∧
    ({ r with last_accessed := now } : Record).company_id = r.company_id ∧
    ({ r with last_accessed := now } : Record).profile_id = r.profile_id ∧
    ({ r with last_accessed := now } : Record).exp = r.exp ∧
    ({ r with last_accessed := now } : Record).user_data = r.user_data ∧
    r.last_accessed ≤ ({ r with last_accessed := now } : Record).last_accessed := by
  refine ⟨?_, rfl, rfl, rfl, rfl, rfl, rfl, rfl, rfl, rfl, rfl, hmono⟩
  have := bump_lookup d now id r true hv hl
  simpa using this

/-- C9, witness at a clock 50 seconds after the stored access time. -/
theorem access_bump_frame_witness :
    _is_valid_session_id "sess-1" = true ∧
    lookupFile [("sess-1", FileData.good sampleRec)] "sess-1"
      = some (FileData.good sampleRec) ∧
    sampleRec.last_accessed ≤ 150 ∧
    (lookupFile (_update_access_time [("sess-1", FileData.good sampleRec)] 150 "sess-1" true)
        "sess-1" = some (FileData.good { sampleRec with last_accessed := 150 }) ∧
      ({ sampleRec with last_accessed := 150 } : Record).created_at = sampleRec.created_at ∧
      ({ sampleRec with last_accessed := 150 } : Record).token = sampleRec.token ∧
      ({ sampleRec with last_accessed := 150 } : Record).api_url = sampleRec.api_url ∧
      ({ sampleRec with last_accessed := 150 } : Record).portal_domain = sampleRec.portal_domain ∧
      ({ sampleRec with last_accessed := 150 } : Record).user_email = sampleRec.user_email ∧
      ({ sampleRec with last_accessed := 150 } : Record).app_user_id = sampleRec.app_user_id ∧
      ({ sampleRec with last_accessed := 150 } : Record).company_id = sampleRec.company_id ∧
      ({ sampleRec with last_accessed := 150 } : Record).profile_id = sampleRec.profile_id ∧
      ({ sampleRec with last_accessed := 150 } : Record).exp = sampleRec.exp ∧
      ({ sampleRec with last_accessed := 150 } : Record).user_data = sampleRec.user_data ∧
      sampleRec.last_accessed ≤ ({ sampleRec with last_accessed := 150 } : Record).last_accessed) :=
  ⟨by decide, by decide, by decide,
    access_bump_frame [("sess-1", FileData.good sampleRec)] 150 "sess-1" sampleRec
      (by decide) (by decide) (by decide)⟩

/-- C10.  A record whose `exp` is present but equal to `0` behaves
exactly like a record with no `exp`: the predicate is false at every
clock value, and neither `load_session` nor the sweep removes the
record. -/
theorem zero_exp_never_expires
    (d : Disk) (now now2 now3 : Int) (id : String) (r : Record) (ioOk : Bool)
    (hnd : (d.map Prod.fst).Nodup)
    (hv : _is_valid_session_id id = true)
    (hl : lookupFile d id = some (FileData.good r))
    (hz : r.exp = some 0) :
    _is_expired now3 r.exp = false ∧
    _is_expired now3 r.exp = _is_expired now3 none ∧
    lookupFile (load_session d now id ioOk).2 id
      = some (FileData.good (if ioOk = true then { r with last_accessed := now } else r)) ∧
    lookupFile (cleanup_expired_sessions d now2).2 id = some (FileData.good r) := by
  have hz3 : ∀ t : Int, _is_expired t r.exp = false := by
    intro t
    rw [hz]
    simp [_is_expired]
  refine ⟨hz3 now3, by rw [hz3 now3]; rfl, ?_, ?_⟩
  · rw [load_unexpired_eq d now id r ioOk hv hl (hz3 now)]
    exact bump_lookup d now id r ioOk hv hl
  · refine cleanup_keeps d now2 id (FileData.good r) hnd hl ?_
    intro r2 h2
    have hr : r2 = r := (FileData.good.inj h2).symm
    rw [hr]
    exact hz3 now2

/-- C10, witness: epoch-zero expiry record survives a load and a sweep
at clock 999999. -/
theorem zero_exp_never_expires_witness :
    (([("sess-1", FileData.good sampleRecZeroExp)].map Prod.fst).Nodup) ∧
    _is_valid_session_id "sess-1" = true ∧
    lookupFile [("sess-1", FileData.good sampleRecZeroExp)] "sess-1"
      = some (FileData.good sampleRecZeroExp) ∧
    sampleRecZeroExp.exp = some 0 ∧
    (_is_expired 424242 sampleRecZeroExp.exp = false ∧
      _is_expired 424242 sampleRecZeroExp.exp = _is_expired 424242 none ∧
      lookupFile
        (load_session [("sess-1", FileData.good sampleRecZeroExp)] 777 "sess-1" true).2
        "sess-1" = some (FileData.good (if true = true
          then { sampleRecZeroExp with last_accessed := 777 } else sampleRecZeroExp)) ∧
      lookupFile
        (cleanup_expired_sessions [("sess-1", FileData.good sampleRecZeroExp)] 999999).2
        "sess-1" = some (FileData.good sampleRecZeroExp)) :=
  ⟨by decide, by decide, by decide, by decide,
    zero_exp_never_expires [("sess-1", FileData.good sampleRecZeroExp)] 777 999999 424242
      "sess-1" sampleRecZeroExp true (by decide) (by decide) (by decide) (by decide)⟩

end SessionManager

